import Mathlib

/-!
Verification model of `uavcan/monitors/__init__.py`.

The module contains three monitor classes:

* `NodeStatusMonitor` — tracks per-node status broadcasts (`on_message`)
  and records node-info responses (`on_nodeinfo_response`);
* `DynamicNodeIDServer` — a three-stage dynamic node-ID allocation
  handshake driven by `on_message`, using class-level state
  `ALLOCATION` (dict from unique-id bytes to allocated id or `None`),
  `QUERY` (accumulated fragment bytes) and `QUERY_TIME`;
* `DebugLogMessageMonitor` — trivial log relay (not needed here).

Python dicts are modelled as association lists (insertion order
preserved, value overwritten in place), byte strings as `List ℕ`,
wall-clock times as `ℚ`, Python `None`/falsy allocation results as
`Option ℕ` together with the truthiness test `pyTruthy`.
-/

/-- Dictionary lookup: first pair whose key matches, as Python `d[k]`. -/
def lookupKV {α β : Type} [DecidableEq α] : List (α × β) → α → Option β
  | [], _ => none
  | (k, v) :: rest, key => if k = key then some v else lookupKV rest key

/-- Dictionary update `d[k] = v`: overwrite the existing binding in place,
or append a new binding at the end (Python dicts keep insertion order). -/
def setKV {α β : Type} [DecidableEq α] : List (α × β) → α → β → List (α × β)
  | [], key, val => [(key, val)]
  | (k, v) :: rest, key, val =>
      if k = key then (key, val) :: rest else (k, v) :: setKV rest key val

/-- Python truthiness of an optional node id: `None` and `0` are falsy. -/
def pyTruthy : Option ℕ → Bool
  | none => false
  | some n => n != 0

/-- Python `range(a, b)` : the list `[a, a+1, ..., b-1]`. -/
def pyRangeUp (a b : ℕ) : List ℕ := List.range' a (b - a)

/-- Python `range(b, a, -1)` : the list `[b, b-1, ..., a+1]`. -/
def pyRangeDown (b a : ℕ) : List ℕ := (List.range' (a + 1) (b - a)).reverse

/-- The `for node_id in r: if node_id not in allocated: ... break` loop:
first element of `l` not in `excluded`, if any. -/
def scanList (excluded : List ℕ) : List ℕ → Option ℕ
  | [] => none
  | i :: rest => if i ∈ excluded then scanList excluded rest else some i

/-! ### NodeStatusMonitor -/

/-- Class-level state of `NodeStatusMonitor`: `NODE_STATUS` (address to
last status message, modelled by its `uptime_sec` field) and
`NODE_TIMESTAMP` (address to last-seen time; `defaultdict(float)`, so a
missing key reads as `0.0`). -/
structure MonitorState where
  nodeStatus : List (ℕ × ℕ)
  nodeTimestamp : List (ℕ × ℚ)
  deriving DecidableEq

/-- `NodeStatusMonitor.on_message`: read the previous timestamp
(default `0.0`) and previous uptime (default `0`), overwrite both
entries, and return whether a `GetNodeInfo` request is issued:
`now - last_timestamp > TIMEOUT or uptime_sec < last_node_uptime`
with `TIMEOUT = 30.0`. -/
def monitorOnMessage (st : MonitorState) (nodeId uptime : ℕ) (now : ℚ) :
    MonitorState × Bool :=
  let lastTimestamp : ℚ := (lookupKV st.nodeTimestamp nodeId).getD 0
  let lastUptime : ℕ := (lookupKV st.nodeStatus nodeId).getD 0
  (⟨setKV st.nodeStatus nodeId uptime, setKV st.nodeTimestamp nodeId now⟩,
   decide (now - lastTimestamp > 30) || decide (uptime < lastUptime))

/-- `NodeStatusMonitor.on_nodeinfo_response`: on a falsy response or
transfer, return immediately; otherwise store the response in
`NODE_INFO` keyed by the transfer's source node id, emit the info log
line, and invoke the new-node callback when one is set.  Result:
(new `NODE_INFO`, log line emitted, callback invoked). -/
def onNodeinfoResponse (nodeInfo : List (ℕ × ℕ)) (response : Option ℕ)
    (transferSrc : Option ℕ) (hasCallback : Bool) :
    List (ℕ × ℕ) × Bool × Bool :=
  match response, transferSrc with
  | some r, some t => (setKV nodeInfo t r, true, hasCallback)
  | _, _ => (nodeInfo, false, false)

/-! ### DynamicNodeIDServer -/

/-- Read-only context of `DynamicNodeIDServer.on_message`:
`dynamic_id_range = (minId, maxId)` (default `(1, 127)`), the server's
own node id, and the keys of `NodeStatusMonitor.NODE_STATUS`. -/
structure ServerEnv where
  minId : ℕ
  maxId : ℕ
  ownId : ℕ
  statusNodeIds : List ℕ
  deriving DecidableEq

/-- Mutable class-level state of `DynamicNodeIDServer`: `ALLOCATION`
(unique-id bytes to allocated id, `none` when allocation failed),
`QUERY` and `QUERY_TIME`. -/
structure AllocState where
  allocation : List (List ℕ × Option ℕ)
  query : List ℕ
  queryTime : ℚ
  deriving DecidableEq

/-- An inbound `uavcan.protocol.dynamic_node_id.Allocation` message:
`first_part_of_unique_id`, `unique_id` bytes, and `node_id`. -/
structure AllocMsg where
  firstPart : Bool
  uniqueId : List ℕ
  nodeId : ℕ
  deriving DecidableEq

/-- An outbound `Allocation` broadcast (its `first_part_of_unique_id`
is always `0` in this module): granted/echoed `node_id` and the
accumulated `unique_id` bytes. -/
structure AllocBroadcast where
  nodeId : ℕ
  uniqueId : List ℕ
  deriving DecidableEq

/-- Which branch of `DynamicNodeIDServer.on_message` ran, and hence
which log line (if any) was emitted. -/
inductive ServerOutcome where
  | gotFirst
  | gotSecond
  | granted
  | allocFailed
  | timeoutReset
  | ignored
  deriving DecidableEq

/-- Result of one `DynamicNodeIDServer.on_message` call. -/
structure ServerResult where
  state : AllocState
  broadcast : Option AllocBroadcast
  outcome : ServerOutcome
  deriving DecidableEq

/-- `allocated_node_ids`: the values of `ALLOCATION` (its `None`
values never match an integer membership test, so only the `some`
values matter) together with the keys of `NODE_STATUS` and the
server's own node id. -/
def excludedIds (env : ServerEnv) (tbl : List (List ℕ × Option ℕ)) : List ℕ :=
  tbl.filterMap (fun p => p.2) ++ env.statusNodeIds ++ [env.ownId]

/-- The allocation logic of the third-stage branch: start from the
existing `ALLOCATION` entry for the query if present (`node_allocated_id`),
then, if an id was requested and none is allocated yet, scan
`range(requested, maxId)` upward; if still falsy, scan
`range(maxId, minId, -1)` downward; each scan returns its first id not
in `allocated_node_ids`. -/
def resolveAlloc (env : ServerEnv) (tbl : List (List ℕ × Option ℕ))
    (q : List ℕ) (requested : ℕ) : Option ℕ :=
  let excluded := excludedIds env tbl
  let a0 : Option ℕ := (lookupKV tbl q).getD none
  let a1 : Option ℕ :=
    if requested ≠ 0 ∧ pyTruthy a0 = false then
      match scanList excluded (pyRangeUp requested env.maxId) with
      | some x => some x
      | none => a0
    else a0
  if pyTruthy a1 = false then
    match scanList excluded (pyRangeDown env.maxId env.minId) with
    | some x => some x
    | none => a1
  else a1

/-- `DynamicNodeIDServer.on_message`.  The four branches, in order:
a first-part fragment replaces `QUERY` and is echoed with node id `0`;
a 6-byte fragment with a 6-byte `QUERY` is appended and echoed;
a 4-byte fragment with a 12-byte `QUERY` completes the id, runs the
allocation, stores the result in `ALLOCATION` unconditionally, and
broadcasts a grant only when the result is truthy;
otherwise, if `QUERY_TIME` is more than `QUERY_TIMEOUT = 3.0` old the
query is reset to empty, else the fragment is ignored. -/
def serverOnMessage (env : ServerEnv) (st : AllocState) (msg : AllocMsg)
    (now : ℚ) : ServerResult :=
  if msg.firstPart then
    ⟨⟨st.allocation, msg.uniqueId, now⟩, some ⟨0, msg.uniqueId⟩, .gotFirst⟩
  else if msg.uniqueId.length = 6 ∧ st.query.length = 6 then
    ⟨⟨st.allocation, st.query ++ msg.uniqueId, now⟩,
     some ⟨0, st.query ++ msg.uniqueId⟩, .gotSecond⟩
  else if msg.uniqueId.length = 4 ∧ st.query.length = 12 then
    let q := st.query ++ msg.uniqueId
    let a := resolveAlloc env st.allocation q msg.nodeId
    if pyTruthy a then
      ⟨⟨setKV st.allocation q a, q, now⟩, some ⟨a.getD 0, q⟩, .granted⟩
    else
      ⟨⟨setKV st.allocation q a, q, now⟩, none, .allocFailed⟩
  else if now - st.queryTime > 3 then
    ⟨⟨st.allocation, [], st.queryTime⟩, none, .timeoutReset⟩
  else
    ⟨st, none, .ignored⟩

/-! ### Helper lemmas on the dictionary and scan primitives -/

theorem lookupKV_setKV_self {α β : Type} [DecidableEq α]
    (l : List (α × β)) (k : α) (v : β) :
    lookupKV (setKV l k v) k = some v := by
  induction l with
  | nil => simp [setKV, lookupKV]
  | cons p rest ih =>
    obtain ⟨k', v'⟩ := p
    by_cases h : k' = k
    · simp [setKV, h, lookupKV]
    · simp [setKV, h, lookupKV, ih]

theorem setKV_eq_self_of_lookupKV {α β : Type} [DecidableEq α]
    {l : List (α × β)} {k : α} {v : β} (h : lookupKV l k = some v) :
    setKV l k v = l := by
  induction l with
  | nil => simp [lookupKV] at h
  | cons p rest ih =>
    obtain ⟨k', v'⟩ := p
    by_cases hk : k' = k
    · rw [lookupKV, if_pos hk] at h
      obtain rfl : v' = v := Option.some.inj h
      simp [setKV, hk]
    · rw [lookupKV, if_neg hk] at h
      simp [setKV, hk, ih h]

theorem scanList_eq_none_iff (ex : List ℕ) (l : List ℕ) :
    scanList ex l = none ↔ ∀ y ∈ l, y ∈ ex := by
  induction l with
  | nil => simp [scanList]
  | cons a rest ih =>
    by_cases h : a ∈ ex
    · simp [scanList, h, ih]
    · simp [scanList, h]

theorem scanList_mem_of_eq_some {ex l : List ℕ} {x : ℕ}
    (h : scanList ex l = some x) : x ∈ l ∧ x ∉ ex := by
  induction l with
  | nil => simp [scanList] at h
  | cons a rest ih =>
    by_cases ha : a ∈ ex
    · rw [scanList, if_pos ha] at h
      exact ⟨List.mem_cons_of_mem _ (ih h).1, (ih h).2⟩
    · rw [scanList, if_neg ha] at h
      obtain rfl : a = x := Option.some.inj h
      exact ⟨List.mem_cons_self _ _, ha⟩

theorem scanList_earlier_mem {ex l : List ℕ} {x : ℕ}
    (hl : List.Pairwise (· < ·) l) (h : scanList ex l = some x) :
    ∀ y ∈ l, y < x → y ∈ ex := by
  induction l with
  | nil => simp [scanList] at h
  | cons a rest ih =>
    intro y hy hyx
    by_cases ha : a ∈ ex
    · rw [scanList, if_pos ha] at h
      rcases List.mem_cons.mp hy with rfl | hy'
      · exact ha
      · exact ih hl.of_cons h y hy' hyx
    · rw [scanList, if_neg ha] at h
      obtain rfl : a = x := Option.some.inj h
      rcases List.mem_cons.mp hy with rfl | hy'
      · exact absurd hyx (lt_irrefl _)
      · exact absurd hyx (not_lt_of_gt (List.rel_of_pairwise_cons hl hy'))

theorem scanList_later_mem {ex l : List ℕ} {x : ℕ}
    (hl : List.Pairwise (· > ·) l) (h : scanList ex l = some x) :
    ∀ y ∈ l, x < y → y ∈ ex := by
  induction l with
  | nil => simp [scanList] at h
  | cons a rest ih =>
    intro y hy hxy
    by_cases ha : a ∈ ex
    · rw [scanList, if_pos ha] at h
      rcases List.mem_cons.mp hy with rfl | hy'
      · exact ha
      · exact ih hl.of_cons h y hy' hxy
    · rw [scanList, if_neg ha] at h
      obtain rfl : a = x := Option.some.inj h
      rcases List.mem_cons.mp hy with rfl | hy'
      · exact absurd hxy (lt_irrefl _)
      · exact absurd hxy (not_lt_of_gt (List.rel_of_pairwise_cons hl hy'))

theorem mem_pyRangeUp {a b y : ℕ} : y ∈ pyRangeUp a b ↔ a ≤ y ∧ y < b := by
  unfold pyRangeUp
  rw [List.mem_range'_1]
  omega

theorem mem_pyRangeDown {b a y : ℕ} : y ∈ pyRangeDown b a ↔ a < y ∧ y ≤ b := by
  unfold pyRangeDown
  rw [List.mem_reverse, List.mem_range'_1]
  omega

theorem pairwise_pyRangeUp (a b : ℕ) :
    List.Pairwise (· < ·) (pyRangeUp a b) :=
  List.pairwise_lt_range' a (b - a)

theorem pairwise_pyRangeDown (b a : ℕ) :
    List.Pairwise (· > ·) (pyRangeDown b a) :=
  List.pairwise_reverse.mpr (List.pairwise_lt_range' (a + 1) (b - a))

/-! ### Branch lemmas for `serverOnMessage` -/

theorem serverOnMessage_third (env : ServerEnv) (st : AllocState)
    (msg : AllocMsg) (now : ℚ) (hfp : msg.firstPart = false)
    (hf : msg.uniqueId.length = 4) (hq : st.query.length = 12) :
    serverOnMessage env st msg now =
      (if pyTruthy (resolveAlloc env st.allocation (st.query ++ msg.uniqueId) msg.nodeId) then
        ⟨⟨setKV st.allocation (st.query ++ msg.uniqueId)
            (resolveAlloc env st.allocation (st.query ++ msg.uniqueId) msg.nodeId),
          st.query ++ msg.uniqueId, now⟩,
         some ⟨(resolveAlloc env st.allocation (st.query ++ msg.uniqueId) msg.nodeId).getD 0,
               st.query ++ msg.uniqueId⟩, .granted⟩
      else
        ⟨⟨setKV st.allocation (st.query ++ msg.uniqueId)
            (resolveAlloc env st.allocation (st.query ++ msg.uniqueId) msg.nodeId),
          st.query ++ msg.uniqueId, now⟩, none, .allocFailed⟩) := by
  rw [serverOnMessage, if_neg (by simp [hfp]), if_neg (by simp [hf]),
      if_pos (by exact ⟨hf, hq⟩)]

theorem resolveAlloc_existing (env : ServerEnv)
    (tbl : List (List ℕ × Option ℕ)) (q : List ℕ) (req : ℕ) (a : ℕ)
    (ha : lookupKV tbl q = some (some a)) (ha0 : a ≠ 0) :
    resolveAlloc env tbl q req = some a := by
  unfold resolveAlloc
  rw [ha]
  simp [pyTruthy, ha0]

/-! ### Claim C1 -/

/-- Claim C1: if the 16-byte unique id assembled from a valid 6,6,4
fragment sequence already has a non-null entry `a` in `ALLOCATION`,
then replaying the full sequence broadcasts a grant of the same
address `a` and leaves `ALLOCATION` unchanged (in particular the id
still maps to `a`); the result does not depend on the scan context
(the excluded-address environment is universally quantified). -/
theorem repeated_completion_idempotent
    (env : ServerEnv) (st : AllocState) (b1 b2 b3 : List ℕ)
    (r1 r2 r3 : ℕ) (t1 t2 t3 : ℚ) (a : ℕ)
    (hb1 : b1.length = 6) (hb2 : b2.length = 6) (hb3 : b3.length = 4)
    (ht2 : t2 - t1 ≤ 3) (ht3 : t3 - t2 ≤ 3)
    (ha : lookupKV st.allocation (b1 ++ b2 ++ b3) = some (some a))
    (ha0 : a ≠ 0) :
    (serverOnMessage env
        (serverOnMessage env
          (serverOnMessage env st ⟨true, b1, r1⟩ t1).state
          ⟨false, b2, r2⟩ t2).state
        ⟨false, b3, r3⟩ t3).broadcast = some ⟨a, b1 ++ b2 ++ b3⟩ ∧
    (serverOnMessage env
        (serverOnMessage env
          (serverOnMessage env st ⟨true, b1, r1⟩ t1).state
          ⟨false, b2, r2⟩ t2).state
        ⟨false, b3, r3⟩ t3).state.allocation = st.allocation := by
  have h1 : serverOnMessage env st ⟨true, b1, r1⟩ t1 =
      ⟨⟨st.allocation, b1, t1⟩, some ⟨0, b1⟩, .gotFirst⟩ := by
    rw [serverOnMessage, if_pos rfl]
  have h2 : serverOnMessage env ⟨st.allocation, b1, t1⟩ ⟨false, b2, r2⟩ t2 =
      ⟨⟨st.allocation, b1 ++ b2, t2⟩, some ⟨0, b1 ++ b2⟩, .gotSecond⟩ := by
    rw [serverOnMessage, if_neg (by simp), if_pos (by exact ⟨hb2, hb1⟩)]
  have hq12 : (b1 ++ b2).length = 12 := by
    rw [List.length_append, hb1, hb2]
  have hres : resolveAlloc env st.allocation (b1 ++ b2 ++ b3) r3 = some a :=
    resolveAlloc_existing env st.allocation (b1 ++ b2 ++ b3) r3 a ha ha0
  have h3 := serverOnMessage_third env ⟨st.allocation, b1 ++ b2, t2⟩
      ⟨false, b3, r3⟩ t3 rfl hb3 hq12
  rw [h1, h2]
  simp only [h3, hres]
  rw [if_pos (by simp [pyTruthy, ha0])]
  refine ⟨rfl, ?_⟩
  exact setKV_eq_self_of_lookupKV ha

/-- Witness for C1 at a concrete input: table `[(id₁₆, some 5)]`, the
identical three fragments replayed at times 0, 1, 2. -/
theorem repeated_completion_idempotent_w :
    (serverOnMessage ⟨1, 127, 3, [1, 2]⟩
        (serverOnMessage ⟨1, 127, 3, [1, 2]⟩
          (serverOnMessage ⟨1, 127, 3, [1, 2]⟩
            ⟨[([1,2,3,4,5,6,7,8,9,10,11,12,13,14,15,16], some 5)], [], 0⟩
            ⟨true, [1,2,3,4,5,6], 0⟩ 0).state
          ⟨false, [7,8,9,10,11,12], 0⟩ 1).state
        ⟨false, [13,14,15,16], 5⟩ 2).broadcast =
      some ⟨5, [1,2,3,4,5,6] ++ [7,8,9,10,11,12] ++ [13,14,15,16]⟩ ∧
    (serverOnMessage ⟨1, 127, 3, [1, 2]⟩
        (serverOnMessage ⟨1, 127, 3, [1, 2]⟩
          (serverOnMessage ⟨1, 127, 3, [1, 2]⟩
            ⟨[([1,2,3,4,5,6,7,8,9,10,11,12,13,14,15,16], some 5)], [], 0⟩
            ⟨true, [1,2,3,4,5,6], 0⟩ 0).state
          ⟨false, [7,8,9,10,11,12], 0⟩ 1).state
        ⟨false, [13,14,15,16], 5⟩ 2).state.allocation =
      [([1,2,3,4,5,6,7,8,9,10,11,12,13,14,15,16], some 5)] :=
  repeated_completion_idempotent ⟨1, 127, 3, [1, 2]⟩
    ⟨[([1,2,3,4,5,6,7,8,9,10,11,12,13,14,15,16], some 5)], [], 0⟩
    [1,2,3,4,5,6] [7,8,9,10,11,12] [13,14,15,16] 0 0 5 0 1 2 5
    rfl rfl rfl (by norm_num) (by norm_num) (by decide) (by decide)

/-! ### Claim C2 -/

/-- Claim C2 counterexample: a 6-byte non-first fragment arriving 10
seconds (> 3.0 s) after the previous accepted fragment is appended to
the 6-byte buffer (giving 12 bytes) instead of resetting it to empty. -/
theorem late_fragment_appended_counterexample :
    (10 : ℚ) - 0 > 3 ∧
    (serverOnMessage ⟨1, 127, 3, []⟩ ⟨[], [1,2,3,4,5,6], 0⟩
        ⟨false, [7,8,9,10,11,12], 0⟩ 10).state.query =
      [1,2,3,4,5,6,7,8,9,10,11,12] := by
  refine ⟨by norm_num, ?_⟩
  rw [serverOnMessage, if_neg (by simp), if_pos ⟨rfl, rfl⟩]
  rfl

/-- Claim C2 amended: a fragment arriving more than 3.0 s after the
previous accepted fragment resets the buffer to empty only when it
matches no stage pattern (it is not first-part, not a 6-byte fragment
on a 6-byte buffer, and not a 4-byte fragment on a 12-byte buffer);
a late fragment matching a stage pattern is processed normally — in
particular a late 6-byte fragment on a 6-byte buffer is appended. -/
theorem late_fragment_reset_only_unmatched (env : ServerEnv) :
    (∀ (st : AllocState) (msg : AllocMsg) (now : ℚ),
        msg.firstPart = false →
        ¬(msg.uniqueId.length = 6 ∧ st.query.length = 6) →
        ¬(msg.uniqueId.length = 4 ∧ st.query.length = 12) →
        now - st.queryTime > 3 →
        serverOnMessage env st msg now =
          ⟨⟨st.allocation, [], st.queryTime⟩, none, .timeoutReset⟩)
  ∧ (∀ (st : AllocState) (frag : List ℕ) (req : ℕ) (now : ℚ),
        frag.length = 6 → st.query.length = 6 →
        (serverOnMessage env st ⟨false, frag, req⟩ now).state.query =
          st.query ++ frag) := by
  constructor
  · intro st msg now hfp h2 h3 hlate
    rw [serverOnMessage, if_neg (by simp [hfp]), if_neg h2, if_neg h3,
        if_pos hlate]
  · intro st frag req now hf hq
    rw [serverOnMessage, if_neg (by simp), if_pos ⟨hf, hq⟩]

/-- Witness for the amended C2: a 1-byte fragment on a 2-byte buffer,
10 seconds late, resets the query to empty. -/
theorem late_fragment_reset_only_unmatched_w :
    serverOnMessage ⟨1, 127, 3, []⟩ ⟨[], [1, 2], 0⟩ ⟨false, [9], 0⟩ 10 =
      ⟨⟨[], [], 0⟩, none, .timeoutReset⟩ :=
  (late_fragment_reset_only_unmatched ⟨1, 127, 3, []⟩).1
    ⟨[], [1, 2], 0⟩ ⟨false, [9], 0⟩ 10 rfl (by decide) (by decide)
    (by norm_num)

/-! ### Claim C3 -/

/-- Claim C3: for a completed id with no prior `ALLOCATION` entry and a
protocol-valid requested address (`req ≤ maxId`, with `req = 0` meaning
none requested) such that no address of `[req, maxId]` is free, the
allocation falls back to the downward scan: whenever some address
strictly between `minId` and `maxId` is free, the allocation succeeds
(does not return `none`); any address it returns lies strictly between
`minId` and `maxId` (so it is never `maxId` itself), is not excluded,
and is the highest free address of that open interval; and if every
address strictly between `minId` and `maxId` is excluded, the
allocation fails (`none`). -/
theorem fallback_scan_highest_free (env : ServerEnv)
    (tbl : List (List ℕ × Option ℕ)) (q : List ℕ) (req : ℕ)
    (hnoalloc : lookupKV tbl q = none)
    (hreq : req ≤ env.maxId)
    (hnofree : ∀ y, req ≤ y → y ≤ env.maxId → y ∈ excludedIds env tbl) :
    (∀ x, resolveAlloc env tbl q req = some x →
        env.minId < x ∧ x < env.maxId ∧ x ∉ excludedIds env tbl ∧
        ∀ y, env.minId < y → y < env.maxId → y ∉ excludedIds env tbl →
          y ≤ x)
  ∧ ((∃ y, env.minId < y ∧ y < env.maxId ∧ y ∉ excludedIds env tbl) →
        resolveAlloc env tbl q req ≠ none)
  ∧ ((∀ y, env.minId < y → y < env.maxId → y ∈ excludedIds env tbl) →
        resolveAlloc env tbl q req = none) := by
  have hup : scanList (excludedIds env tbl) (pyRangeUp req env.maxId)
      = none := by
    rw [scanList_eq_none_iff]
    intro y hy
    have hb := mem_pyRangeUp.mp hy
    exact hnofree y hb.1 (le_of_lt hb.2)
  have hred : resolveAlloc env tbl q req =
      (match scanList (excludedIds env tbl)
          (pyRangeDown env.maxId env.minId) with
        | some x => some x
        | none => none) := by
    unfold resolveAlloc
    rw [hnoalloc]
    by_cases hr : req = 0
    · cases hdown : scanList (excludedIds env tbl)
          (pyRangeDown env.maxId env.minId) with
      | none => simp [pyTruthy, hr, hdown]
      | some z => simp [pyTruthy, hr, hdown]
    · cases hdown : scanList (excludedIds env tbl)
          (pyRangeDown env.maxId env.minId) with
      | none => simp [pyTruthy, hr, hup, hdown]
      | some z => simp [pyTruthy, hr, hup, hdown]
  refine ⟨?_, ?_, ?_⟩
  · intro x hx
    rw [hred] at hx
    cases hdown : scanList (excludedIds env tbl)
        (pyRangeDown env.maxId env.minId) with
    | none => rw [hdown] at hx; exact absurd hx (by simp)
    | some z =>
      rw [hdown] at hx
      obtain rfl : z = x := Option.some.inj hx
      obtain ⟨hmem, hnotex⟩ := scanList_mem_of_eq_some hdown
      have hb := mem_pyRangeDown.mp hmem
      have hxlt : z < env.maxId := by
        rcases lt_or_eq_of_le hb.2 with h | h
        · exact h
        · exact absurd (hnofree z (h ▸ hreq) hb.2) hnotex
      refine ⟨hb.1, hxlt, hnotex, ?_⟩
      intro y hy1 hy2 hyfree
      by_contra hlt
      push_neg at hlt
      exact hyfree (scanList_later_mem (pairwise_pyRangeDown _ _) hdown y
        (mem_pyRangeDown.mpr ⟨hy1, le_of_lt hy2⟩) hlt)
  · rintro ⟨y0, hy1, hy2, hy3⟩ hcontra
    rw [hred] at hcontra
    cases hdown : scanList (excludedIds env tbl)
        (pyRangeDown env.maxId env.minId) with
    | some z => rw [hdown] at hcontra; exact absurd hcontra (by simp)
    | none =>
      exact hy3 ((scanList_eq_none_iff _ _).mp hdown y0
        (mem_pyRangeDown.mpr ⟨hy1, le_of_lt hy2⟩))
  · intro hall
    rw [hred]
    have hnone : scanList (excludedIds env tbl)
        (pyRangeDown env.maxId env.minId) = none := by
      rw [scanList_eq_none_iff]
      intro y hy
      have hb := mem_pyRangeDown.mp hy
      rcases lt_or_eq_of_le hb.2 with h | h
      · exact hall y hb.1 h
      · exact hnofree y (h ▸ hreq) hb.2
    rw [hnone]

/-- Witness for C3: `minId = 1`, `maxId = 4`, own id `4`, live node `3`;
requested address `3` with `{3, 4}` all excluded; address `2` is free,
so the fallback succeeds and finds `2`, which is strictly inside
`(1, 4)` and free. -/
theorem fallback_scan_highest_free_w :
    ((1 : ℕ) < 2 ∧ (2 : ℕ) < 4 ∧
      (2 : ℕ) ∉ excludedIds ⟨1, 4, 4, [3]⟩ []) ∧
    resolveAlloc ⟨1, 4, 4, [3]⟩ [] [0] 3 ≠ none :=
  let hall := fallback_scan_highest_free ⟨1, 4, 4, [3]⟩ [] [0] 3 rfl
    (by norm_num)
    (by intro y h1 h2; interval_cases y <;> decide)
  let h := hall.1 2 (by decide)
  ⟨⟨h.1, h.2.1, h.2.2.1⟩,
   hall.2.1 ⟨2, by decide, by decide, by decide⟩⟩

/-! ### Claim C4 -/

theorem resolveAlloc_none_of_all_excluded (env : ServerEnv)
    (tbl : List (List ℕ × Option ℕ)) (q : List ℕ) (req : ℕ)
    (ha0 : (lookupKV tbl q).getD none = none)
    (hex : ∀ y, (req ≤ y ∨ env.minId < y) → y ≤ env.maxId →
        y ∈ excludedIds env tbl) :
    resolveAlloc env tbl q req = none := by
  have hup : scanList (excludedIds env tbl) (pyRangeUp req env.maxId)
      = none := by
    rw [scanList_eq_none_iff]
    intro y hy
    have hb := mem_pyRangeUp.mp hy
    exact hex y (Or.inl hb.1) (le_of_lt hb.2)
  have hdown : scanList (excludedIds env tbl)
      (pyRangeDown env.maxId env.minId) = none := by
    rw [scanList_eq_none_iff]
    intro y hy
    have hb := mem_pyRangeDown.mp hy
    exact hex y (Or.inr hb.1) hb.2
  unfold resolveAlloc
  rw [ha0]
  by_cases hr : req = 0
  · simp [pyTruthy, hr, hdown]
  · simp [pyTruthy, hr, hup, hdown]

/-- Claim C4 counterexample: with `minId = 1`, `maxId = 2`, own id `2`
and live node `2`, a completion starting from an empty `ALLOCATION`
fails (no broadcast, error outcome) — but the table is NOT left
unmodified: an entry mapping the 16-byte id to `none` is created. -/
theorem exhaustion_modifies_table_counterexample :
    (serverOnMessage ⟨1, 2, 2, [2]⟩
        ⟨[], [1,2,3,4,5,6,7,8,9,10,11,12], 0⟩
        ⟨false, [13,14,15,16], 0⟩ 0).outcome = .allocFailed ∧
    (serverOnMessage ⟨1, 2, 2, [2]⟩
        ⟨[], [1,2,3,4,5,6,7,8,9,10,11,12], 0⟩
        ⟨false, [13,14,15,16], 0⟩ 0).broadcast = none ∧
    (serverOnMessage ⟨1, 2, 2, [2]⟩
        ⟨[], [1,2,3,4,5,6,7,8,9,10,11,12], 0⟩
        ⟨false, [13,14,15,16], 0⟩ 0).state.allocation =
      [([1,2,3,4,5,6,7,8,9,10,11,12,13,14,15,16], none)] ∧
    [([1,2,3,4,5,6,7,8,9,10,11,12,13,14,15,16], (none : Option ℕ))] ≠
      ([] : List (List ℕ × Option ℕ)) := by
  refine ⟨?_, ?_, ?_, by decide⟩ <;> decide

/-- Claim C4 amended: when no free address exists (every address
reachable by either scan is excluded) and the id has no truthy prior
entry, the completion is logged as an error and no broadcast is sent,
but `ALLOCATION` is modified: the unconditional
`ALLOCATION[QUERY] = node_allocated_id` writes a `none` entry for the
16-byte id. -/
theorem exhaustion_records_null (env : ServerEnv) (st : AllocState)
    (frag : List ℕ) (req : ℕ) (now : ℚ)
    (hf : frag.length = 4) (hq : st.query.length = 12)
    (ha0 : (lookupKV st.allocation (st.query ++ frag)).getD none = none)
    (hex : ∀ y, (req ≤ y ∨ env.minId < y) → y ≤ env.maxId →
        y ∈ excludedIds env st.allocation) :
    serverOnMessage env st ⟨false, frag, req⟩ now =
      ⟨⟨setKV st.allocation (st.query ++ frag) none, st.query ++ frag, now⟩,
       none, .allocFailed⟩ := by
  have hres : resolveAlloc env st.allocation (st.query ++ frag) req = none :=
    resolveAlloc_none_of_all_excluded env st.allocation (st.query ++ frag)
      req ha0 hex
  rw [serverOnMessage_third env st ⟨false, frag, req⟩ now rfl hf hq]
  rw [hres]
  rfl

/-- Witness for the amended C4: requested address `2` with `{2}` the
whole reachable range and excluded; the failed completion stores a
`none` entry. -/
theorem exhaustion_records_null_w :
    serverOnMessage ⟨1, 2, 2, [2]⟩
        ⟨[], [21,22,23,24,25,26,27,28,29,30,31,32], 0⟩
        ⟨false, [33,34,35,36], 2⟩ 0 =
      ⟨⟨[([21,22,23,24,25,26,27,28,29,30,31,32,33,34,35,36], none)],
        [21,22,23,24,25,26,27,28,29,30,31,32] ++ [33,34,35,36], 0⟩,
       none, .allocFailed⟩ :=
  exhaustion_records_null ⟨1, 2, 2, [2]⟩
    ⟨[], [21,22,23,24,25,26,27,28,29,30,31,32], 0⟩ [33,34,35,36] 2 0
    rfl rfl rfl
    (by
      intro y h1 h2
      have h1' : 2 ≤ y ∨ 1 < y := h1
      have h2' : y ≤ 2 := h2
      have hy : y = 2 := by omega
      subst hy
      decide)

/-! ### Claim C5 -/

/-- Claim C5 counterexample: the first-ever observation of address `9`
(no previous timestamp entry) at clock value `10` with uptime `5` does
NOT trigger a refresh — the never-seen sentinel is `0.0`, not
"effectively infinite", so `10 - 0 > 30` fails. -/
theorem first_observation_counterexample :
    lookupKV (MonitorState.mk [] []).nodeTimestamp 9 = none ∧
    (monitorOnMessage ⟨[], []⟩ 9 5 10).2 = false := by
  refine ⟨rfl, ?_⟩
  norm_num [monitorOnMessage, lookupKV]

/-- Claim C5 amended: `observe` refreshes iff
`now - prevTimestamp > 30` or `uptime < prevUptime`, where a
never-seen address reads `prevTimestamp = 0.0` and `prevUptime = 0`;
hence a first-ever observation triggers a refresh iff the current
clock exceeds 30, not unconditionally.  Both registry entries are
unconditionally overwritten. -/
theorem observe_refresh_iff (st : MonitorState) (nodeId uptime : ℕ)
    (now : ℚ) :
    ((monitorOnMessage st nodeId uptime now).2 = true ↔
      (now - (lookupKV st.nodeTimestamp nodeId).getD 0 > 30 ∨
        uptime < (lookupKV st.nodeStatus nodeId).getD 0))
  ∧ (lookupKV st.nodeTimestamp nodeId = none →
      lookupKV st.nodeStatus nodeId = none →
      ((monitorOnMessage st nodeId uptime now).2 = true ↔ now > 30))
  ∧ (monitorOnMessage st nodeId uptime now).1 =
      ⟨setKV st.nodeStatus nodeId uptime, setKV st.nodeTimestamp nodeId now⟩ := by
  refine ⟨?_, ?_, rfl⟩
  · simp [monitorOnMessage]
  · intro h1 h2
    simp [monitorOnMessage, h1, h2, sub_zero]

/-- Witness for the amended C5: a first-ever observation at clock 31
does refresh (31 > 30). -/
theorem observe_refresh_iff_w :
    (monitorOnMessage ⟨[], []⟩ 9 5 31).2 = true :=
  ((observe_refresh_iff ⟨[], []⟩ 9 5 31).2.1 rfl rfl).mpr (by norm_num)

/-! ### Claim C6 -/

/-- Claim C6 counterexample: a successful completion (grant of address
5) leaves the session buffer holding the full 16 bytes — the next
event does not observe an empty session. -/
theorem complete_leaves_buffer_counterexample :
    (serverOnMessage ⟨1, 127, 127, []⟩
        ⟨[], [1,2,3,4,5,6,7,8,9,10,11,12], 0⟩
        ⟨false, [13,14,15,16], 5⟩ 0).outcome = .granted ∧
    (serverOnMessage ⟨1, 127, 127, []⟩
        ⟨[], [1,2,3,4,5,6,7,8,9,10,11,12], 0⟩
        ⟨false, [13,14,15,16], 5⟩ 0).state.query =
      [1,2,3,4,5,6,7,8,9,10,11,12,13,14,15,16] ∧
    [1,2,3,4,5,6,7,8,9,10,11,12,13,14,15,16] ≠ ([] : List ℕ) := by
  refine ⟨?_, ?_, by decide⟩ <;> decide

/-- Claim C6 amended: after any third-stage fragment completes a
16-byte id, the session buffer is NOT reset to empty: whether the
allocation succeeds or fails, `QUERY` is left holding all 16 bytes
(it is only replaced by a later first-part fragment or cleared by a
later timeout reset). -/
theorem complete_leaves_query (env : ServerEnv) (st : AllocState)
    (frag : List ℕ) (req : ℕ) (now : ℚ)
    (hf : frag.length = 4) (hq : st.query.length = 12) :
    (serverOnMessage env st ⟨false, frag, req⟩ now).state.query =
      st.query ++ frag ∧
    (serverOnMessage env st ⟨false, frag, req⟩ now).state.query.length
      = 16 := by
  rw [serverOnMessage_third env st ⟨false, frag, req⟩ now rfl hf hq]
  have hlen : (st.query ++ frag).length = 16 := by
    rw [List.length_append, hq, hf]
  split_ifs with h
  · exact ⟨rfl, hlen⟩
  · exact ⟨rfl, hlen⟩

/-- Witness for the amended C6 at a concrete failing completion: the
buffer still holds the 16 bytes after an exhausted allocation. -/
theorem complete_leaves_query_w :
    (serverOnMessage ⟨1, 2, 2, [2]⟩
        ⟨[], [41,42,43,44,45,46,47,48,49,50,51,52], 0⟩
        ⟨false, [53,54,55,56], 0⟩ 0).state.query =
      [41,42,43,44,45,46,47,48,49,50,51,52] ++ [53,54,55,56] ∧
    (serverOnMessage ⟨1, 2, 2, [2]⟩
        ⟨[], [41,42,43,44,45,46,47,48,49,50,51,52], 0⟩
        ⟨false, [53,54,55,56], 0⟩ 0).state.query.length = 16 :=
  complete_leaves_query ⟨1, 2, 2, [2]⟩
    ⟨[], [41,42,43,44,45,46,47,48,49,50,51,52], 0⟩ [53,54,55,56] 0 0
    rfl rfl

/-! ### Claim C7 -/

/-- Claim C7: for a completed id with no prior `ALLOCATION` entry and a
non-zero requested address with at least one free address in
`[req, maxId)`, the allocation succeeds, and the returned address is
the first non-excluded address scanning upward from the requested one
(in particular it is `≥ req` and `< maxId`). -/
theorem requested_upward_first_free (env : ServerEnv)
    (tbl : List (List ℕ × Option ℕ)) (q : List ℕ) (req : ℕ)
    (hreq : req ≠ 0) (hnoalloc : lookupKV tbl q = none)
    (hfree : ∃ y, req ≤ y ∧ y < env.maxId ∧ y ∉ excludedIds env tbl) :
    resolveAlloc env tbl q req ≠ none ∧
    ∀ x, resolveAlloc env tbl q req = some x →
      req ≤ x ∧ x < env.maxId ∧ x ∉ excludedIds env tbl ∧
      ∀ y, req ≤ y → y < x → y ∈ excludedIds env tbl := by
  obtain ⟨y0, hy1, hy2, hy3⟩ := hfree
  cases hscan : scanList (excludedIds env tbl) (pyRangeUp req env.maxId) with
  | none =>
    exact absurd ((scanList_eq_none_iff _ _).mp hscan y0
      (mem_pyRangeUp.mpr ⟨hy1, hy2⟩)) hy3
  | some x =>
    obtain ⟨hmem, hnotex⟩ := scanList_mem_of_eq_some hscan
    have hb := mem_pyRangeUp.mp hmem
    have hx0 : x ≠ 0 := by
      have := hb.1
      omega
    have hres : resolveAlloc env tbl q req = some x := by
      unfold resolveAlloc
      rw [hnoalloc]
      simp [pyTruthy, hreq, hscan, hx0]
    refine ⟨by rw [hres]; exact Option.some_ne_none x, ?_⟩
    intro x' hx'
    rw [hres] at hx'
    obtain rfl : x = x' := Option.some.inj hx'
    refine ⟨hb.1, hb.2, hnotex, ?_⟩
    intro y hy1' hy2'
    exact scanList_earlier_mem (pairwise_pyRangeUp _ _) hscan y
      (mem_pyRangeUp.mpr ⟨hy1', lt_trans hy2' hb.2⟩) hy2'

/-- Witness for C7: excluded `{1, 2, 5, 3}`, requested `5`; the upward
scan grants `6`, which is `≥ 5`, below `maxId`, and free. -/
theorem requested_upward_first_free_w :
    (5 : ℕ) ≤ 6 ∧ (6 : ℕ) < 127 ∧
      (6 : ℕ) ∉ excludedIds ⟨1, 127, 3, [1, 2, 5]⟩ [] :=
  let h := (requested_upward_first_free ⟨1, 127, 3, [1, 2, 5]⟩ [] [0] 5
    (by decide) rfl ⟨6, by decide, by decide, by decide⟩).2 6 (by decide)
  ⟨h.1, h.2.1, h.2.2.1⟩

/-! ### Claim C8 -/

/-- Claim C9: a completion that finds no free address stores a `none`
entry for the 16-byte id, and on a later completion of the same id the
`none` entry reads as falsy (`not node_allocated_id`), so the scans run
again and a grant overwrites the `none` entry with the new address —
allocation failure is never permanent. -/
theorem null_entry_retried (env : ServerEnv) :
    (∀ (st : AllocState) (frag : List ℕ) (req : ℕ) (now : ℚ),
        frag.length = 4 → st.query.length = 12 →
        (lookupKV st.allocation (st.query ++ frag)).getD none = none →
        (∀ y, (req ≤ y ∨ env.minId < y) → y ≤ env.maxId →
            y ∈ excludedIds env st.allocation) →
        lookupKV (serverOnMessage env st ⟨false, frag, req⟩
            now).state.allocation (st.query ++ frag) = some none)
  ∧ (∀ (st : AllocState) (frag : List ℕ) (now : ℚ),
        frag.length = 4 → st.query.length = 12 →
        lookupKV st.allocation (st.query ++ frag) = some none →
        (∃ y, env.minId < y ∧ y ≤ env.maxId ∧
            y ∉ excludedIds env st.allocation) →
        (serverOnMessage env st ⟨false, frag, 0⟩ now).outcome = .granted ∧
        (serverOnMessage env st ⟨false, frag, 0⟩ now).broadcast ≠ none ∧
        ∀ b, (serverOnMessage env st ⟨false, frag, 0⟩ now).broadcast
            = some b →
          b.uniqueId = st.query ++ frag ∧ b.nodeId ≠ 0 ∧
          lookupKV (serverOnMessage env st ⟨false, frag, 0⟩
              now).state.allocation (st.query ++ frag)
            = some (some b.nodeId)) := by
  constructor
  · intro st frag req now hf hq ha0 hex
    have hres : resolveAlloc env st.allocation (st.query ++ frag) req
        = none :=
      resolveAlloc_none_of_all_excluded env st.allocation
        (st.query ++ frag) req ha0 hex
    rw [serverOnMessage_third env st ⟨false, frag, req⟩ now rfl hf hq, hres]
    rw [if_neg (by decide)]
    exact lookupKV_setKV_self st.allocation (st.query ++ frag) none
  · intro st frag now hf hq halloc hfree
    obtain ⟨y0, hy1, hy2, hy3⟩ := hfree
    cases hdown : scanList (excludedIds env st.allocation)
        (pyRangeDown env.maxId env.minId) with
    | none =>
      exact absurd ((scanList_eq_none_iff _ _).mp hdown y0
        (mem_pyRangeDown.mpr ⟨hy1, hy2⟩)) hy3
    | some x =>
      have hb := mem_pyRangeDown.mp (scanList_mem_of_eq_some hdown).1
      have hx0 : x ≠ 0 := by
        have := hb.1
        omega
      have hres : resolveAlloc env st.allocation (st.query ++ frag) 0
          = some x := by
        unfold resolveAlloc
        rw [halloc]
        simp [pyTruthy, hdown]
      rw [serverOnMessage_third env st ⟨false, frag, 0⟩ now rfl hf hq, hres]
      rw [if_pos (by simp [pyTruthy, hx0])]
      refine ⟨rfl, by simp, ?_⟩
      intro b hbr
      obtain rfl : (⟨(some x).getD 0, st.query ++ frag⟩ : AllocBroadcast)
          = b := Option.some.inj hbr
      exact ⟨rfl, hx0, lookupKV_setKV_self _ _ _⟩

/-- Witness for C9: part 1 — an exhausted completion stores `none`;
part 2 — a later completion of the same id with address 2 free grants 2
and overwrites the `none` entry. -/
theorem null_entry_retried_w :
    lookupKV (serverOnMessage ⟨1, 3, 3, [2, 3]⟩
        ⟨[], [61,62,63,64,65,66,67,68,69,70,71,72], 0⟩
        ⟨false, [73,74,75,76], 2⟩ 0).state.allocation
      ([61,62,63,64,65,66,67,68,69,70,71,72] ++ [73,74,75,76])
      = some none ∧
    ((serverOnMessage ⟨1, 3, 3, [3]⟩
        ⟨[([61,62,63,64,65,66,67,68,69,70,71,72,73,74,75,76], none)],
          [61,62,63,64,65,66,67,68,69,70,71,72], 0⟩
        ⟨false, [73,74,75,76], 0⟩ 5).outcome = .granted ∧
      ([61,62,63,64,65,66,67,68,69,70,71,72] ++ [73,74,75,76]
          = [61,62,63,64,65,66,67,68,69,70,71,72] ++ [73,74,75,76]) ∧
      (2 : ℕ) ≠ 0 ∧
      lookupKV (serverOnMessage ⟨1, 3, 3, [3]⟩
          ⟨[([61,62,63,64,65,66,67,68,69,70,71,72,73,74,75,76], none)],
            [61,62,63,64,65,66,67,68,69,70,71,72], 0⟩
          ⟨false, [73,74,75,76], 0⟩ 5).state.allocation
        ([61,62,63,64,65,66,67,68,69,70,71,72] ++ [73,74,75,76])
        = some (some 2)) := by
  constructor
  · exact (null_entry_retried ⟨1, 3, 3, [2, 3]⟩).1
      ⟨[], [61,62,63,64,65,66,67,68,69,70,71,72], 0⟩ [73,74,75,76] 2 0
      rfl rfl rfl
      (by
        intro y h1 h2
        have h1' : 2 ≤ y ∨ 1 < y := h1
        have h2' : y ≤ 3 := h2
        have hy : y = 2 ∨ y = 3 := by omega
        rcases hy with rfl | rfl <;> decide)
  · have h := (null_entry_retried ⟨1, 3, 3, [3]⟩).2
      ⟨[([61,62,63,64,65,66,67,68,69,70,71,72,73,74,75,76], none)],
        [61,62,63,64,65,66,67,68,69,70,71,72], 0⟩ [73,74,75,76] 5
      rfl rfl (by decide) ⟨2, by decide, by decide, by decide⟩
    have hb := h.2.2 ⟨2, [61,62,63,64,65,66,67,68,69,70,71,72]
        ++ [73,74,75,76]⟩ (by decide)
    exact ⟨h.1, hb.1, hb.2.1, hb.2.2⟩

/-! ### Claim C10 -/

/-- Claim C10: a falsy response or transfer makes the node-info handler
return immediately with no effect (`NODE_INFO` unchanged, no log line,
no callback); and whenever the callback is invoked, the response and
transfer were truthy, the callback was configured, and the response had
just been recorded under the transfer's source node id. -/
theorem nodeinfo_falsy_no_effect :
    (∀ (info : List (ℕ × ℕ)) (resp transferSrc : Option ℕ) (cb : Bool),
        resp = none ∨ transferSrc = none →
        onNodeinfoResponse info resp transferSrc cb = (info, false, false))
  ∧ (∀ (info : List (ℕ × ℕ)) (resp transferSrc : Option ℕ) (cb : Bool),
        (onNodeinfoResponse info resp transferSrc cb).2.2 = true →
        ∃ r t, resp = some r ∧ transferSrc = some t ∧ cb = true ∧
          lookupKV (onNodeinfoResponse info resp transferSrc cb).1 t
            = some r) := by
  constructor
  · rintro info resp transferSrc cb (rfl | rfl)
    · cases transferSrc <;> rfl
    · cases resp <;> rfl
  · intro info resp transferSrc cb h
    match resp, transferSrc with
    | some r, some t =>
      exact ⟨r, t, rfl, rfl, h, lookupKV_setKV_self info t r⟩
    | none, _ => exact absurd h (by simp [onNodeinfoResponse])
    | some r, none => exact absurd h (by simp [onNodeinfoResponse])

/-- Witness for C10: a `None` response with a valid transfer leaves the
stored info untouched and triggers neither log nor callback. -/
theorem nodeinfo_falsy_no_effect_w :
    onNodeinfoResponse [(1, 7)] none (some 2) true = ([(1, 7)], false, false) :=
  nodeinfo_falsy_no_effect.1 [(1, 7)] none (some 2) true (Or.inl rfl)
